import Mathlib

/-!
Verification of the Distill news pipeline (headline search, article scraping,
relevance summarization) against its natural-language specification.

The JavaScript sources are shallowly embedded: network and model I/O is
represented by oracle functions passed as explicit arguments (a run of the
program fixes their outcomes), asynchronous code whose results are order
independent of timing (Promise.all collects results in argument order) is
embedded as pure list computations, and the one genuinely temporal component
(the summarizer rate limiter) gets an explicit event-loop step semantics.
-/

namespace Distill

/-- One entry of SearchResult.results as built by parseSearchResults
(searxngService.js lines 197-214). Timing fields are omitted. -/
structure ArticleRef where
  rank : Nat
  title : String
  url : String
  content : String
  engine : String
  score : Nat
deriving DecidableEq, Repr

/-- The per-headline search outcome built by searchHeadline
(searxngService.js lines 17-63): success with results, or failure with an
error message and empty results. query/totalFound/searchedAt omitted. -/
structure SearchResult where
  success : Bool
  headline : String
  results : List ArticleRef
  error : Option String
deriving DecidableEq, Repr

/-- Chunking of the input list as done by the loop
`for (let i = 0; i < headlines.length; i += maxParallel)` with
`headlines.slice(i, i + maxParallel)` (searxngService.js lines 77-78).
Structural recursion on a fuel argument (one element is consumed per step, so
fuel = length suffices); requires chunk size at least 1, matching the loop,
which does not terminate for maxParallel = 0. -/
def chunksGo (n : Nat) : Nat → List α → List (List α)
  | 0, _ => []
  | _, [] => []
  | fuel + 1, x :: xs => (x :: xs.take (n - 1)) :: chunksGo n fuel (xs.drop (n - 1))

def chunks (n : Nat) (l : List α) : List (List α) :=
  chunksGo n l.length l

/-- The aggregate object returned by searchMultipleHeadlinesParallel
(searxngService.js lines 115-123). totalTime/processedAt omitted. -/
structure ParallelSearchOutcome where
  success : Bool
  totalHeadlines : Nat
  successfulSearches : Nat
  failedSearches : Nat
  results : List SearchResult
deriving DecidableEq, Repr

/-- The per-result counting step of the chunkResults.forEach loop
(searxngService.js lines 97-104): bump the success or failure counter and
push the result. Accumulator is (successCount, failureCount, allResults). -/
def tallyStep (a : Nat × Nat × List SearchResult) (r : SearchResult) :
    Nat × Nat × List SearchResult :=
  if r.success then (a.1 + 1, a.2.1, a.2.2 ++ [r])
  else (a.1, a.2.1 + 1, a.2.2 ++ [r])

/-- searchMultipleHeadlinesParallel (searxngService.js lines 66-133).
The oracle `search` gives the settled value of `searchHeadline` for a
headline in this run. Each chunk's promises are collected with Promise.all,
which resolves to results in argument order regardless of settlement order;
the stagger delays affect timing only, so the value-level behaviour is the
chunkwise map below followed by the forEach tally. -/
def searchMultipleHeadlinesParallel (search : String → SearchResult)
    (headlines : List String) (maxParallel : Nat) : ParallelSearchOutcome :=
  let final := (chunks maxParallel headlines).foldl
    (fun acc chunk => (chunk.map search).foldl tallyStep acc) (0, 0, [])
  { success := true
    totalHeadlines := headlines.length
    successfulSearches := final.1
    failedSearches := final.2.1
    results := final.2.2 }

theorem tally_foldl (rs : List SearchResult) (a : Nat × Nat × List SearchResult) :
    rs.foldl tallyStep a =
      (a.1 + (rs.filter (fun r => r.success)).length,
       a.2.1 + (rs.filter (fun r => !r.success)).length,
       a.2.2 ++ rs) := by
  induction rs generalizing a with
  | nil => simp
  | cons r rs ih =>
    simp only [List.foldl_cons, ih, tallyStep]
    by_cases h : r.success = true
    · simp [h, List.filter_cons]
      omega
    · simp at h
      simp [h, List.filter_cons]
      omega

theorem chunksGo_foldl (g : β → α → β) (n : Nat) :
    ∀ (fuel : Nat) (l : List α), l.length ≤ fuel → ∀ (b : β),
      (chunksGo n fuel l).foldl (fun acc c => c.foldl g acc) b = l.foldl g b := by
  intro fuel
  induction fuel with
  | zero =>
    intro l hl b
    have : l = [] := List.eq_nil_of_length_eq_zero (Nat.le_zero.mp hl)
    subst this; rfl
  | succ fuel ih =>
    intro l hl b
    cases l with
    | nil => rfl
    | cons x xs =>
      simp only [chunksGo, List.foldl_cons]
      rw [ih (xs.drop (n - 1)) (by simp at hl ⊢; omega)]
      have hsplit : xs.foldl g (g b x) =
          (xs.take (n - 1) ++ xs.drop (n - 1)).foldl g (g b x) := by
        rw [List.take_append_drop]
      rw [hsplit, List.foldl_append]

/-- The chunkwise map-and-collect visits exactly the input list in order. -/
theorem chunks_map_foldl (search : String → SearchResult) (n : Nat)
    (headlines : List String) :
    (chunks n headlines).foldl
        (fun acc chunk => (chunk.map search).foldl tallyStep acc) (0, 0, []) =
      (headlines.map search).foldl tallyStep ((0 : Nat), (0 : Nat), ([] : List SearchResult)) := by
  have h1 : ∀ (b : Nat × Nat × List SearchResult),
      (chunks n headlines).foldl (fun acc chunk => (chunk.map search).foldl tallyStep acc) b
        = headlines.foldl (fun acc h => tallyStep acc (search h)) b := by
    intro b
    have := chunksGo_foldl (fun acc h => tallyStep acc (search h)) n
      headlines.length headlines (Nat.le_refl _) b
    rw [← this]
    unfold chunks
    congr 1
    funext acc c
    rw [List.foldl_map]
  rw [h1, List.foldl_map]

/-- C6. searchMultipleHeadlinesParallel returns one result per input headline
in input order (the i-th output is the search outcome of the i-th headline),
and its success/failure counters equal the number of returned results with
success true resp. false, for every chunk size at least 1. -/
theorem c6_search_order_and_counts (search : String → SearchResult)
    (headlines : List String) (maxParallel : Nat) (hmp : 0 < maxParallel) :
    (searchMultipleHeadlinesParallel search headlines maxParallel).results
        = headlines.map search
    ∧ (searchMultipleHeadlinesParallel search headlines maxParallel).successfulSearches
        = (((searchMultipleHeadlinesParallel search headlines maxParallel).results).filter
            (fun r => r.success)).length
    ∧ (searchMultipleHeadlinesParallel search headlines maxParallel).failedSearches
        = (((searchMultipleHeadlinesParallel search headlines maxParallel).results).filter
            (fun r => !r.success)).length
    ∧ (searchMultipleHeadlinesParallel search headlines maxParallel).totalHeadlines
        = headlines.length := by
  unfold searchMultipleHeadlinesParallel
  rw [chunks_map_foldl, tally_foldl]
  simp

def searchStubTrue : String → SearchResult := fun h =>
  { success := h ≠ "bad", headline := h, results := [], error := none }

/-- Witness for C6 at a concrete input: three headlines, chunk size 2. -/
theorem c6_search_order_and_counts_witness :
    (0 : Nat) < 2
    ∧ ((searchMultipleHeadlinesParallel searchStubTrue ["h1", "bad", "h3"] 2).results
          = ["h1", "bad", "h3"].map searchStubTrue
        ∧ (searchMultipleHeadlinesParallel searchStubTrue ["h1", "bad", "h3"] 2).successfulSearches
          = (((searchMultipleHeadlinesParallel searchStubTrue ["h1", "bad", "h3"] 2).results).filter
              (fun r => r.success)).length
        ∧ (searchMultipleHeadlinesParallel searchStubTrue ["h1", "bad", "h3"] 2).failedSearches
          = (((searchMultipleHeadlinesParallel searchStubTrue ["h1", "bad", "h3"] 2).results).filter
              (fun r => !r.success)).length
        ∧ (searchMultipleHeadlinesParallel searchStubTrue ["h1", "bad", "h3"] 2).totalHeadlines
          = (["h1", "bad", "h3"] : List String).length) :=
  ⟨by decide, c6_search_order_and_counts searchStubTrue ["h1", "bad", "h3"] 2 (by decide)⟩

/-! ## Article scraper (articleScraper.js, src/unnamed/part_004) -/

/-- The per-URL scrape outcome built by scrapeUrl (part_004 lines 119-170):
success with extracted content, or failure with an error message and no
content field. contentPreview/wordCount/author/scrapedAt omitted. -/
structure ScrapedArticle where
  success : Bool
  url : String
  title : Option String
  content : Option String
  error : Option String
deriving DecidableEq, Repr

/-- The per-headline record pushed by scrapeHeadlineResults. The failed-search
record (part_004 lines 204-208) has no totalSearchResults/scrapedCount fields,
hence the Option. -/
structure ScrapedHeadlineResult where
  headline : String
  searchSuccess : Bool
  totalSearchResults : Option Nat
  scrapedCount : Option Nat
  scrapedArticles : List ScrapedArticle
deriving DecidableEq, Repr

/-- The guard `!headlineResult.success || !headlineResult.results ||
headlineResult.results.length === 0` (part_004 line 202), negated: a headline
whose search succeeded with at least one result. -/
def goodSR (hr : SearchResult) : Bool :=
  hr.success && !hr.results.isEmpty

/-- The record pushed for a headline with no usable search results
(part_004 lines 204-208). -/
def failedOutput (hr : SearchResult) : ScrapedHeadlineResult :=
  { headline := hr.headline, searchSuccess := false,
    totalSearchResults := none, scrapedCount := none, scrapedArticles := [] }

/-- The record pushed after awaiting a good headline's scrape tasks
(part_004 lines 246-252). `fetch` is the oracle giving the settled value of
scrapeUrl for a URL in this run; Promise.all keeps the order of
urlsToScrape = results.slice(0, urlsPerHeadline).map(r => r.url). -/
def goodOutput (fetch : String → ScrapedArticle) (urlsPerHeadline : Nat)
    (hr : SearchResult) : ScrapedHeadlineResult :=
  let urlsToScrape := (hr.results.take urlsPerHeadline).map (fun r => r.url)
  let scrapedArticles := urlsToScrape.map fetch
  { headline := hr.headline, searchSuccess := true,
    totalSearchResults := some hr.results.length,
    scrapedCount := some ((scrapedArticles.filter (fun a => a.success)).length),
    scrapedArticles := scrapedArticles }

/-- One batch of scrapeHeadlineResults (part_004 lines 183-255): the first
loop pushes a failedOutput immediately for each bad headline and accumulates
the good ones as batchTasks; the second loop then awaits each good headline's
tasks and pushes its goodOutput. Accumulator is (results pushed so far,
batchTasks so far). -/
def scrapeBatch (fetch : String → ScrapedArticle) (urlsPerHeadline : Nat)
    (batch : List SearchResult) : List ScrapedHeadlineResult :=
  let acc := batch.foldl
    (fun (acc : List ScrapedHeadlineResult × List SearchResult) hr =>
      if goodSR hr then (acc.1, acc.2 ++ [hr])
      else (acc.1 ++ [failedOutput hr], acc.2))
    ([], [])
  acc.1 ++ acc.2.map (goodOutput fetch urlsPerHeadline)

/-- scrapeHeadlineResults (part_004 lines 173-269): batches of the literal
size 5, processed sequentially, all pushing into one results array. The
maxParallel limiter affects timing only, not the collected values. -/
def scrapeHeadlineResults (fetch : String → ScrapedArticle)
    (headlineSearchResults : List SearchResult)
    (urlsPerHeadline : Nat) (maxParallel : Nat) : List ScrapedHeadlineResult :=
  (chunks 5 headlineSearchResults).foldl
    (fun results batch => results ++ scrapeBatch fetch urlsPerHeadline batch) []

theorem scrapeBatch_eq (fetch : String → ScrapedArticle) (u : Nat)
    (batch : List SearchResult) :
    scrapeBatch fetch u batch =
      (batch.filter (fun hr => !goodSR hr)).map failedOutput
        ++ (batch.filter goodSR).map (goodOutput fetch u) := by
  have h : ∀ (accF : List ScrapedHeadlineResult) (accT : List SearchResult),
      batch.foldl
        (fun (acc : List ScrapedHeadlineResult × List SearchResult) hr =>
          if goodSR hr then (acc.1, acc.2 ++ [hr])
          else (acc.1 ++ [failedOutput hr], acc.2)) (accF, accT)
        = (accF ++ (batch.filter (fun hr => !goodSR hr)).map failedOutput,
           accT ++ batch.filter goodSR) := by
    induction batch with
    | nil => simp
    | cons hr rest ih =>
      intro accF accT
      by_cases hg : goodSR hr
      · simp [List.foldl_cons, hg, ih, List.filter_cons]
      · have hg' : goodSR hr = false := by simpa using hg
        simp [List.foldl_cons, hg', ih, List.filter_cons]
  unfold scrapeBatch
  simp only [h, List.nil_append, List.map_append]

theorem chunksGo_foldl_append (f : List α → List β) (n : Nat) :
    ∀ (fuel : Nat) (l : List α) (acc : List β),
      (chunksGo n fuel l).foldl (fun r b => r ++ f b) acc
        = acc ++ (chunksGo n fuel l).flatMap f := by
  intro fuel
  induction fuel with
  | zero => intro l acc; simp [chunksGo]
  | succ fuel ih =>
    intro l acc
    cases l with
    | nil => simp [chunksGo]
    | cons x xs =>
      simp only [chunksGo, List.foldl_cons, List.flatMap_cons, ih, List.append_assoc]

/-- The headline fields of one processed batch are a permutation of the
headline fields of the input batch. -/
theorem scrapeBatch_headline_perm (fetch : String → ScrapedArticle) (u : Nat)
    (batch : List SearchResult) :
    ((scrapeBatch fetch u batch).map (fun r => r.headline)).Perm
      (batch.map (fun hr => hr.headline)) := by
  rw [scrapeBatch_eq]
  have hperm : ((batch.filter (fun hr => !goodSR hr)) ++ batch.filter goodSR).Perm batch := by
    have h0 := List.filter_append_perm (fun hr => !goodSR hr) batch
    have h1 : batch.filter (fun x => !(!goodSR x)) = batch.filter goodSR := by
      simp [Bool.not_not]
    rw [h1] at h0
    exact h0
  have hmaps : ((batch.filter (fun hr => !goodSR hr)).map failedOutput
          ++ (batch.filter goodSR).map (goodOutput fetch u)).map (fun r => r.headline)
      = (((batch.filter (fun hr => !goodSR hr)) ++ batch.filter goodSR).map
          (fun hr => hr.headline)) := by
    simp only [List.map_append, List.map_map]
    rfl
  rw [hmaps]
  exact hperm.map _

theorem chunksGo_flatMap_map_perm {f : List α → List β} {g1 : β → γ} {g2 : α → γ}
    (hf : ∀ b, ((f b).map g1).Perm (b.map g2)) (n : Nat) :
    ∀ (fuel : Nat) (l : List α), l.length ≤ fuel →
      (((chunksGo n fuel l).flatMap f).map g1).Perm (l.map g2) := by
  intro fuel
  induction fuel with
  | zero =>
    intro l hl
    have : l = [] := List.eq_nil_of_length_eq_zero (Nat.le_zero.mp hl)
    subst this
    simp [chunksGo]
  | succ fuel ih =>
    intro l hl
    cases l with
    | nil => simp [chunksGo]
    | cons x xs =>
      simp only [chunksGo, List.flatMap_cons, List.map_append]
      have hrest := ih (xs.drop (n - 1)) (by simp at hl ⊢; omega)
      have happ := (hf (x :: xs.take (n - 1))).append hrest
      have hjoin : ((x :: xs.take (n - 1)).map g2) ++ ((xs.drop (n - 1)).map g2)
          = (x :: xs).map g2 := by
        rw [← List.map_append]
        congr 1
        simp [List.take_append_drop]
      rw [hjoin] at happ
      exact happ

def refA : ArticleRef :=
  { rank := 1, title := "tA", url := "http://a", content := "", engine := "e", score := 0 }

def srGoodA : SearchResult :=
  { success := true, headline := "A", results := [refA], error := none }

def srBadB : SearchResult :=
  { success := false, headline := "B", results := [], error := some "search failed" }

def fetchStub : String → ScrapedArticle := fun u =>
  { success := true, url := u, title := some "T", content := some "body", error := none }

/-- C1 counterexample. For the input [srGoodA, srBadB] (headlines "A" then
"B", both in the same batch of 5), scrapeHeadlineResults emits the failed
headline "B" first — the first loop of the batch pushes failed-search records
before the second loop pushes any scraped record — so the output order is
["B", "A"], not the input order ["A", "B"] the claim requires. -/
theorem c1_scrape_order_counterexample :
    ([srGoodA, srBadB].map (fun hr => hr.headline) = ["A", "B"])
    ∧ ((scrapeHeadlineResults fetchStub [srGoodA, srBadB] 2 5).map
        (fun r => r.headline)) = ["B", "A"]
    ∧ (["B", "A"] : List String) ≠ ["A", "B"] := by
  refine ⟨rfl, rfl, by decide⟩

/-- C1 as amended: scrapeHeadlineResults returns exactly one
ScrapedHeadlineResult per input element (the output headlines are a
permutation of the input headlines and the lengths agree), but the order is
only preserved between batches of 5 and between headlines of the same kind:
within each batch, all failed-or-empty-search results come first (in input
order) and all successfully-searched results after them (in input order).
Within each ScrapedHeadlineResult, scrapedArticles is exactly the fetch
outcome of the first urlsPerHeadline selected URLs, in selection order,
regardless of which fetches succeed. -/
theorem c1_scrape_batch_structure (fetch : String → ScrapedArticle)
    (u m : Nat) (srs : List SearchResult) :
    scrapeHeadlineResults fetch srs u m
        = (chunks 5 srs).flatMap (fun b =>
            (b.filter (fun hr => !goodSR hr)).map failedOutput
              ++ (b.filter goodSR).map (goodOutput fetch u))
    ∧ ((scrapeHeadlineResults fetch srs u m).map (fun r => r.headline)).Perm
        (srs.map (fun hr => hr.headline))
    ∧ (scrapeHeadlineResults fetch srs u m).length = srs.length
    ∧ ∀ hr : SearchResult, (goodOutput fetch u hr).scrapedArticles
        = ((hr.results.take u).map (fun r => r.url)).map fetch := by
  have hflat : scrapeHeadlineResults fetch srs u m
      = (chunks 5 srs).flatMap (scrapeBatch fetch u) := by
    unfold scrapeHeadlineResults chunks
    rw [chunksGo_foldl_append (scrapeBatch fetch u) 5 srs.length srs []]
    rfl
  have hperm : ((scrapeHeadlineResults fetch srs u m).map (fun r => r.headline)).Perm
      (srs.map (fun hr => hr.headline)) := by
    rw [hflat]
    unfold chunks
    exact chunksGo_flatMap_map_perm (scrapeBatch_headline_perm fetch u) 5
      srs.length srs (Nat.le_refl _)
  refine ⟨?_, hperm, ?_, fun hr => rfl⟩
  · rw [hflat]
    congr 1
    funext b
    exact scrapeBatch_eq fetch u b
  · have := hperm.length_eq
    simpa using this

/-! ## C7: the batch concurrency limiter

In the source (part_004 lines 212-233), the scrape tasks of a batch are
created with `urlsToScrape.map(url => this.scrapeUrl(url))` inside the first
loop: invoking the async function scrapeUrl starts it immediately (it runs to
its first await and its work is in flight from then on). Only afterwards does
the second loop wrap the already-created promises as `limit(() => scrapeTask)`;
the pLimit concurrency cap therefore gates thunks that merely return promises
whose underlying fetches are already running, so it bounds nothing. The
definition below counts the scrapeUrl invocations made during batch-task
construction, i.e. the number of fetch tasks already started before any
limiter slot is taken. -/

def fetchTasksStartedBeforeLimiter (urlsPerHeadline : Nat)
    (batch : List SearchResult) : Nat :=
  (batch.filter goodSR).foldl
    (fun n hr => n + ((hr.results.take urlsPerHeadline).map (fun r => r.url)).length) 0

def refB : ArticleRef :=
  { rank := 2, title := "tB", url := "http://b", content := "", engine := "e", score := 0 }

def mkGoodSR (h : String) : SearchResult :=
  { success := true, headline := h, results := [refA, refB], error := none }

def batchFive : List SearchResult :=
  [mkGoodSR "h1", mkGoodSR "h2", mkGoodSR "h3", mkGoodSR "h4", mkGoodSR "h5"]

/-- C7 fails on the code: for a batch of 5 successfully-searched headlines
with 2 selected URLs each (the defaults), all 10 scrapeUrl tasks have already
been started when batch-task construction finishes, before the pLimit wrapper
(maxParallel = 5) runs at all — so 10 > 5 fetches are in flight at once and
the claimed global cap of maxParallel does not hold. -/
theorem c7_limiter_bypassed :
    fetchTasksStartedBeforeLimiter 2 batchFive = 10 ∧ 5 < 10 := by
  constructor
  · rfl
  · decide

/-! ## Content summarizer (contentSummarizer.js, appended to src/prisma/schema.prisma) -/

/-- Occurrence of one list inside another, used to embed the JavaScript
`String.prototype.includes` check on the response text. -/
def listContainsSub [BEq α] : List α → List α → Bool
  | needle, [] => needle.isEmpty
  | needle, x :: t => needle.isPrefixOf (x :: t) || listContainsSub needle t

/-- Whitespace trimming of the model response text (`.trim()` on line 251),
as a structural computation on the character list. -/
def trimChars (s : String) : String :=
  String.mk (((s.toList.dropWhile Char.isWhitespace).reverse.dropWhile
    Char.isWhitespace).reverse)

/-- Splitting at every whitespace character (pieces between occurrences,
possibly empty), the list-level counterpart of splitting on runs and
filtering empties as the source does. -/
def splitAtWs : List Char → List (List Char)
  | [] => [[]]
  | c :: cs =>
    if c.isWhitespace then [] :: splitAtWs cs
    else
      match splitAtWs cs with
      | [] => [[c]]
      | p :: ps => (c :: p) :: ps

/-- Word count of a summary: `responseText.split(/\s+/).filter(word =>
word.length > 0).length` (schema.prisma appendix line 262). -/
def countWords (s : String) : Nat :=
  ((splitAtWs s.toList).filter (fun w => decide (0 < w.length))).length

/-- The value returned by analyzeAndSummarize (lines 202-285). -/
structure Analysis where
  relevant : Bool
  summary : Option String
  wordCount : Option Nat
  error : Option String
deriving DecidableEq, Repr

/-- analyzeAndSummarize (lines 202-285). The oracle outcome is the model
call: .error msg when generateContent (or anything before it) throws — the
catch block returns relevant:false with the error recorded (lines 271-284) —
and .ok raw for the extracted candidate text (raw is "" when the response has
no candidates). The response is trimmed; an empty, literal "NOT_RELEVANT",
or NOT_RELEVANT-containing response is classified not relevant (line 254);
otherwise the trimmed text is the summary with its word count. -/
def analyzeAndSummarize (modelOutcome : Except String String) : Analysis :=
  match modelOutcome with
  | .error msg => { relevant := false, summary := none, wordCount := none, error := some msg }
  | .ok raw =>
    let responseText := trimChars raw
    if responseText.toList.isEmpty || responseText == "NOT_RELEVANT"
        || listContainsSub "NOT_RELEVANT".toList responseText.toList then
      { relevant := false, summary := none, wordCount := none, error := none }
    else
      { relevant := true, summary := some responseText,
        wordCount := some (countWords responseText), error := none }

structure SourceArticleInfo where
  url : String
  title : Option String
  articleIndex : Nat
  totalArticlesChecked : Nat
deriving DecidableEq, Repr

/-- The per-headline summary record. The success record (lines 309-320) has
sourceArticle and no reason/top-level totalArticlesChecked; the two failure
records (lines 327-333 and 355-360) have a reason, and only the
no-relevant-content one carries totalArticlesChecked. -/
structure SummaryResult where
  headline : String
  success : Bool
  summary : Option String
  wordCount : Option Nat
  sourceArticle : Option SourceArticleInfo
  reason : Option String
  totalArticlesChecked : Option Nat
deriving DecidableEq, Repr

/-- The skip guard of the article loop: `!article.success || !article.content
|| article.content.length < 100` (line 294). A missing content field and an
empty string are both falsy in the source; both are skipped here too (an
empty string has length 0 < 100). -/
def skipArticle (a : ScrapedArticle) : Bool :=
  !a.success || a.content.isNone || decide ((a.content.getD "").length < 100)

/-- JavaScript truthiness of the summary field (`analysis.summary` in the
guard on line 307): present and non-empty. -/
def truthyStr : Option String → Bool
  | none => false
  | some s => !s.isEmpty

/-- The failure record returned when no article matched (lines 327-333);
`n` is scrapedArticles.length. -/
def noRelevantResult (h : String) (n : Nat) : SummaryResult :=
  { headline := h, success := false, summary := none, wordCount := none,
    sourceArticle := none,
    reason := some "No relevant content found in scraped articles",
    totalArticlesChecked := some n }

/-- The success record returned at the first relevant article (lines 309-320);
`i` is the 0-based loop index. -/
def foundResult (h : String) (a : ScrapedArticle) (i : Nat) (an : Analysis) : SummaryResult :=
  { headline := h, success := true, summary := an.summary, wordCount := an.wordCount,
    sourceArticle := some { url := a.url, title := a.title,
                            articleIndex := i + 1, totalArticlesChecked := i + 1 },
    reason := none, totalArticlesChecked := none }

/-- The record pushed by summarizeHeadlines for a headline whose
scrapedArticles list is missing or empty (lines 355-360). -/
def noArticlesResult (h : String) : SummaryResult :=
  { headline := h, success := false, summary := none, wordCount := none,
    sourceArticle := none, reason := some "No articles to analyze",
    totalArticlesChecked := none }

/-- The article loop of findAndSummarizeRelevantContent (lines 291-324),
with i the loop index. The model oracle gives, per article index, the
outcome of the analyzeAndSummarize model call for that article. Besides the
SummaryResult, the list of article indices for which a model call was made
is returned (each model call is immediately preceded by the one
enforceApiDelay rate-limit wait, so this list also counts the rate-limit
waits of the scan). -/
def scanGo (model : Nat → Except String String) (headline : String) :
    List ScrapedArticle → Nat → SummaryResult × List Nat
  | [], i => (noRelevantResult headline i, [])
  | a :: rest, i =>
    if skipArticle a then scanGo model headline rest (i + 1)
    else
      let analysis := analyzeAndSummarize (model i)
      if analysis.relevant && truthyStr analysis.summary then
        (foundResult headline a i analysis, [i])
      else
        let next := scanGo model headline rest (i + 1)
        (next.1, i :: next.2)

/-- findAndSummarizeRelevantContent (lines 288-334). -/
def findAndSummarizeRelevantContent (model : Nat → Except String String)
    (headline : String) (scrapedArticles : List ScrapedArticle) :
    SummaryResult × List Nat :=
  scanGo model headline scrapedArticles 0

/-- The aggregate object returned by summarizeHeadlines (lines 387-394).
processingTime omitted. -/
structure SummarizeOutcome where
  success : Bool
  totalHeadlines : Nat
  successfulSummaries : Nat
  failedSummaries : Nat
  summaries : List SummaryResult
deriving DecidableEq, Repr

/-- The headline loop of summarizeHeadlines (lines 353-381), with idx the
position of the headline. The model oracle is indexed by (headline position,
article index). Returns (summaries, successCount, model calls tagged with
their headline position). -/
def summGo (model : Nat → Nat → Except String String) :
    Nat → List ScrapedHeadlineResult → List SummaryResult × Nat × List (Nat × Nat)
  | _, [] => ([], 0, [])
  | idx, hd :: rest =>
    let cur := if hd.scrapedArticles.isEmpty
      then (noArticlesResult hd.headline, ([] : List Nat))
      else findAndSummarizeRelevantContent (model idx) hd.headline hd.scrapedArticles
    let restRun := summGo model (idx + 1) rest
    (cur.1 :: restRun.1,
     (if cur.1.success then 1 else 0) + restRun.2.1,
     cur.2.map (fun j => (idx, j)) ++ restRun.2.2)

/-- summarizeHeadlines (lines 337-395), instrumented with the list of model
calls made across the run. -/
def summarizeHeadlines (model : Nat → Nat → Except String String)
    (scrapedResults : List ScrapedHeadlineResult) :
    SummarizeOutcome × List (Nat × Nat) :=
  let run := summGo model 0 scrapedResults
  ({ success := true,
     totalHeadlines := scrapedResults.length,
     successfulSummaries := run.2.1,
     failedSummaries := scrapedResults.length - run.2.1,
     summaries := run.1 }, run.2.2)

def art99 : ScrapedArticle :=
  { success := true, url := "u99", title := some "t99",
    content := some (String.mk (List.replicate 99 'a')), error := none }

def art100 : ScrapedArticle :=
  { success := true, url := "u100", title := some "t100",
    content := some (String.mk (List.replicate 100 'a')), error := none }

/-- C8. The eligibility filter of the summarizer skips exactly the articles
with no success flag, missing content, or content shorter than 100
characters; at the boundary, an otherwise-valid article of content length 99
is skipped without a model call (the scan over it ends in the
no-relevant-content failure with an empty call list), while one of content
length 100 is eligible and triggers a model call (index 0 appears in the
call list). -/
theorem c8_eligibility_boundary :
    (∀ a : ScrapedArticle, skipArticle a = false ↔
      (a.success = true ∧ ∃ c, a.content = some c ∧ 100 ≤ c.length))
    ∧ findAndSummarizeRelevantContent (fun _ => .ok "S") "H" [art99]
        = (noRelevantResult "H" 1, [])
    ∧ (findAndSummarizeRelevantContent (fun _ => .ok "S") "H" [art100]).2 = [0] := by
  refine ⟨?_, rfl, rfl⟩
  intro a
  unfold skipArticle
  cases hc : a.content with
  | none => simp [hc]
  | some c =>
    cases hsucc : a.success with
    | false => simp [hc, hsucc]
    | true => simp [hc, hsucc, Nat.not_lt]

/-! ### C4: failure reasons for headlines with nothing to analyze -/

def dummyHeadlineResult : ScrapedHeadlineResult :=
  { headline := "", searchSuccess := false, totalSearchResults := none,
    scrapedCount := none, scrapedArticles := [] }

def dummySummary : SummaryResult := noArticlesResult ""

/-- Behaviour of one headline in the summarizeHeadlines loop: the empty-list
guard (line 354) short-circuits, otherwise the article scan runs. -/
def perHeadlineSummary (m : Nat → Except String String)
    (hd : ScrapedHeadlineResult) : SummaryResult :=
  if hd.scrapedArticles.isEmpty then noArticlesResult hd.headline
  else (findAndSummarizeRelevantContent m hd.headline hd.scrapedArticles).1

/-- Model calls one headline contributes in the summarizeHeadlines loop. -/
def perHeadlineCalls (m : Nat → Except String String)
    (hd : ScrapedHeadlineResult) : List Nat :=
  if hd.scrapedArticles.isEmpty then []
  else (findAndSummarizeRelevantContent m hd.headline hd.scrapedArticles).2

theorem scanGo_all_skipped (model : Nat → Except String String) (h : String) :
    ∀ (l : List ScrapedArticle) (k : Nat),
      (∀ a ∈ l, skipArticle a = true) →
      scanGo model h l k = (noRelevantResult h (k + l.length), []) := by
  intro l
  induction l with
  | nil => intro k _; simp [scanGo]
  | cons a rest ih =>
    intro k hskip
    have ha : skipArticle a = true := hskip a (by simp)
    have hrest : ∀ b ∈ rest, skipArticle b = true := fun b hb => hskip b (by simp [hb])
    simp only [scanGo, ha, if_true, ih (k + 1) hrest, List.length_cons]
    congr 2
    omega

theorem summGo_summaries_getD (model : Nat → Nat → Except String String) :
    ∀ (srs : List ScrapedHeadlineResult) (k i : Nat), i < srs.length →
      (summGo model k srs).1.getD i dummySummary
        = perHeadlineSummary (model (k + i)) (srs.getD i dummyHeadlineResult) := by
  intro srs
  induction srs with
  | nil => intro k i hi; simp at hi
  | cons hd rest ih =>
    intro k i hi
    cases i with
    | zero =>
      simp only [summGo, List.getD_cons_zero, Nat.add_zero]
      unfold perHeadlineSummary
      by_cases he : hd.scrapedArticles.isEmpty
      · simp [he]
      · simp [he]
    | succ i =>
      simp only [summGo, List.getD_cons_succ]
      have hk : k + (i + 1) = (k + 1) + i := by omega
      rw [hk]
      exact ih (k + 1) i (by simpa using hi)

theorem summGo_calls (model : Nat → Nat → Except String String) :
    ∀ (srs : List ScrapedHeadlineResult) (k : Nat) (c : Nat × Nat),
      c ∈ (summGo model k srs).2.2 →
      ∃ j, j < srs.length ∧ c.1 = k + j
        ∧ c.2 ∈ perHeadlineCalls (model (k + j)) (srs.getD j dummyHeadlineResult) := by
  intro srs
  induction srs with
  | nil => intro k c hc; simp [summGo] at hc
  | cons hd rest ih =>
    intro k c hc
    simp only [summGo, List.mem_append, List.mem_map] at hc
    rcases hc with ⟨j, hj, rfl⟩ | hc
    · refine ⟨0, by simp, by simp, ?_⟩
      simp only [Nat.add_zero, List.getD_cons_zero]
      unfold perHeadlineCalls
      by_cases he : hd.scrapedArticles.isEmpty
      · simp only [he, if_true] at hj ⊢
        simp at hj
      · simpa [he] using hj
    · obtain ⟨j, hjlen, hj1, hj2⟩ := ih (k + 1) c hc
      refine ⟨j + 1, by simpa using Nat.succ_lt_succ hjlen, by omega, ?_⟩
      rw [List.getD_cons_succ]
      have : k + (j + 1) = k + 1 + j := by omega
      rw [this]
      exact hj2

def badScrapeArticle : ScrapedArticle :=
  { success := false, url := "http://x", title := none, content := none,
    error := some "HTTP error: 404" }

def zeroEligibleHeadline : ScrapedHeadlineResult :=
  { headline := "H", searchSuccess := true, totalSearchResults := some 1,
    scrapedCount := some 0, scrapedArticles := [badScrapeArticle] }

/-- C4 counterexample. A headline whose scrapedArticles list is non-empty but
contains zero eligible articles (here: one failed scrape) is NOT failed with
reason "No articles to analyze" as the claim states: the empty-list guard of
summarizeHeadlines does not fire, the article scan runs, skips everything,
and the headline fails with reason "No relevant content found in scraped
articles" instead. -/
theorem c4_zero_eligible_counterexample :
    (∀ a ∈ zeroEligibleHeadline.scrapedArticles, skipArticle a = true)
    ∧ ((summarizeHeadlines (fun _ _ => .ok "S") [zeroEligibleHeadline]).1.summaries.map
        (fun s => s.reason))
        = [some "No relevant content found in scraped articles"]
    ∧ (some "No relevant content found in scraped articles" : Option String)
        ≠ some "No articles to analyze" := by
  refine ⟨by decide, rfl, by decide⟩

/-- C4 as amended: a headline with zero eligible articles is failed without
any model call (hence without any rate-limit wait, since the one
enforceApiDelay wait precedes each model call inside analyzeAndSummarize),
but the reason depends on how the list is empty: a missing or empty
scrapedArticles list gives "No articles to analyze", while a non-empty list
all of whose articles are skipped gives "No relevant content found in
scraped articles". -/
theorem c4_failure_reasons (model : Nat → Nat → Except String String)
    (srs : List ScrapedHeadlineResult) (i : Nat) (hi : i < srs.length)
    (hskip : ∀ a ∈ (srs.getD i dummyHeadlineResult).scrapedArticles, skipArticle a = true) :
    ((summarizeHeadlines model srs).1.summaries.getD i dummySummary
      = (if (srs.getD i dummyHeadlineResult).scrapedArticles.isEmpty
         then noArticlesResult (srs.getD i dummyHeadlineResult).headline
         else noRelevantResult (srs.getD i dummyHeadlineResult).headline
                (srs.getD i dummyHeadlineResult).scrapedArticles.length))
    ∧ ∀ c ∈ (summarizeHeadlines model srs).2, c.1 ≠ i := by
  constructor
  · have hsum : (summarizeHeadlines model srs).1.summaries = (summGo model 0 srs).1 := rfl
    rw [hsum, summGo_summaries_getD model srs 0 i hi]
    unfold perHeadlineSummary
    simp only [Nat.zero_add]
    by_cases he : (srs.getD i dummyHeadlineResult).scrapedArticles.isEmpty = true
    · rw [if_pos he, if_pos he]
    · rw [if_neg he, if_neg he]
      unfold findAndSummarizeRelevantContent
      rw [scanGo_all_skipped (model i) _ _ 0 hskip]
      simp
  · intro c hc hci
    have hc2 : c ∈ (summGo model 0 srs).2.2 := hc
    obtain ⟨j, hjlen, hj1, hj2⟩ := summGo_calls model srs 0 c hc2
    have hji : i = j := by omega
    subst hji
    simp only [Nat.zero_add] at hj2
    unfold perHeadlineCalls at hj2
    by_cases he : (srs.getD i dummyHeadlineResult).scrapedArticles.isEmpty = true
    · rw [if_pos he] at hj2
      simp at hj2
    · rw [if_neg he] at hj2
      unfold findAndSummarizeRelevantContent at hj2
      rw [scanGo_all_skipped _ _ _ 0 hskip] at hj2
      simp at hj2

/-- Witness for C4 at a concrete input: one headline with one failed scrape. -/
theorem c4_failure_reasons_witness :
    (0 < ([zeroEligibleHeadline] : List ScrapedHeadlineResult).length)
    ∧ (∀ a ∈ (([zeroEligibleHeadline] : List ScrapedHeadlineResult).getD 0
          dummyHeadlineResult).scrapedArticles, skipArticle a = true)
    ∧ ((summarizeHeadlines (fun _ _ => .ok "S") [zeroEligibleHeadline]).1.summaries.getD 0
          dummySummary
        = (if (([zeroEligibleHeadline] : List ScrapedHeadlineResult).getD 0
              dummyHeadlineResult).scrapedArticles.isEmpty
           then noArticlesResult (([zeroEligibleHeadline] : List ScrapedHeadlineResult).getD 0
              dummyHeadlineResult).headline
           else noRelevantResult (([zeroEligibleHeadline] : List ScrapedHeadlineResult).getD 0
              dummyHeadlineResult).headline
              (([zeroEligibleHeadline] : List ScrapedHeadlineResult).getD 0
              dummyHeadlineResult).scrapedArticles.length))
    ∧ ∀ c ∈ (summarizeHeadlines (fun _ _ => .ok "S") [zeroEligibleHeadline]).2, c.1 ≠ 0 :=
  ⟨by decide, by decide,
    c4_failure_reasons (fun _ _ => .ok "S") [zeroEligibleHeadline] 0 (by decide) (by decide)⟩

/-! ### C5: first-match scan -/

def dummyArticle : ScrapedArticle :=
  { success := false, url := "", title := none, content := none, error := none }

/-- Article at index i stops the scan: it passes the skip guard and the model
response for it is classified relevant with a (truthy) summary. -/
def articleHit (model : Nat → Except String String) (a : ScrapedArticle) (i : Nat) : Bool :=
  !skipArticle a
    && ((analyzeAndSummarize (model i)).relevant
          && truthyStr (analyzeAndSummarize (model i)).summary)

theorem scanGo_first_hit (model : Nat → Except String String) (h : String) :
    ∀ (pre : List ScrapedArticle) (a : ScrapedArticle) (rest : List ScrapedArticle) (k : Nat),
      (∀ j, j < pre.length → articleHit model (pre.getD j dummyArticle) (k + j) = false) →
      articleHit model a (k + pre.length) = true →
      (scanGo model h (pre ++ a :: rest) k).1
          = foundResult h a (k + pre.length) (analyzeAndSummarize (model (k + pre.length)))
        ∧ ∀ c ∈ (scanGo model h (pre ++ a :: rest) k).2, c ≤ k + pre.length := by
  intro pre
  induction pre with
  | nil =>
    intro a rest k _ hhit
    simp only [List.length_nil, Nat.add_zero] at hhit ⊢
    unfold articleHit at hhit
    have hskip : skipArticle a = false := by
      cases hs : skipArticle a
      · rfl
      · rw [hs] at hhit; simp at hhit
    have hcond : ((analyzeAndSummarize (model k)).relevant
        && truthyStr (analyzeAndSummarize (model k)).summary) = true := by
      rw [hskip] at hhit
      simpa using hhit
    have hstep : scanGo model h ([] ++ a :: rest) k
        = (foundResult h a k (analyzeAndSummarize (model k)), [k]) := by
      simp only [List.nil_append, scanGo, hskip, Bool.false_eq_true, if_false, hcond, if_true]
    rw [hstep]
    refine ⟨rfl, ?_⟩
    intro c hc
    simp at hc
    omega
  | cons b pre ih =>
    intro a rest k hmiss hhit
    have hb : articleHit model b k = false := by
      have := hmiss 0 (by simp)
      simpa using this
    have hmiss' : ∀ j, j < pre.length →
        articleHit model (pre.getD j dummyArticle) ((k + 1) + j) = false := by
      intro j hj
      have := hmiss (j + 1) (by simpa using Nat.succ_lt_succ hj)
      have harith : k + (j + 1) = (k + 1) + j := by omega
      rw [List.getD_cons_succ, harith] at this
      exact this
    have hlen : k + (b :: pre).length = (k + 1) + pre.length := by
      simp [List.length_cons]; omega
    have hhit' : articleHit model a ((k + 1) + pre.length) = true := by
      rw [← hlen]; exact hhit
    by_cases hskipb : skipArticle b = true
    · simp only [List.cons_append, scanGo, hskipb, if_true]
      have := ih a rest (k + 1) hmiss' hhit'
      rw [hlen]
      exact this
    · have hskipb' : skipArticle b = false := by simpa using hskipb
      have hcondb : ((analyzeAndSummarize (model k)).relevant
          && truthyStr (analyzeAndSummarize (model k)).summary) = false := by
        unfold articleHit at hb
        rw [hskipb'] at hb
        simpa using hb
      simp only [List.cons_append, scanGo, hskipb', Bool.false_eq_true, if_false, hcondb]
      have := ih a rest (k + 1) hmiss' hhit'
      rw [hlen]
      refine ⟨this.1, ?_⟩
      intro c hc
      simp only [List.mem_cons] at hc
      rcases hc with rfl | hc
      · omega
      · exact this.2 c hc

/-- C5. The summarizer scans a headline's scrapedArticles in order and stops
at the first article that the model judges relevant (among those passing the
eligibility guard): if every article before position i misses and the
article at 0-based position i hits, the returned SummaryResult is the
success record whose sourceArticle has articleIndex = totalArticlesChecked =
i + 1 (the 1-based position), and no model call is made for any article
after position i. -/
theorem c5_first_match_scan (model : Nat → Except String String) (h : String)
    (pre : List ScrapedArticle) (a : ScrapedArticle) (rest : List ScrapedArticle)
    (hmiss : ∀ j, j < pre.length → articleHit model (pre.getD j dummyArticle) j = false)
    (hhit : articleHit model a pre.length = true) :
    (findAndSummarizeRelevantContent model h (pre ++ a :: rest)).1
        = foundResult h a pre.length (analyzeAndSummarize (model pre.length))
    ∧ (findAndSummarizeRelevantContent model h (pre ++ a :: rest)).1.sourceArticle
        = some { url := a.url, title := a.title,
                 articleIndex := pre.length + 1, totalArticlesChecked := pre.length + 1 }
    ∧ ∀ c ∈ (findAndSummarizeRelevantContent model h (pre ++ a :: rest)).2,
        c ≤ pre.length := by
  have hmiss0 : ∀ j, j < pre.length →
      articleHit model (pre.getD j dummyArticle) (0 + j) = false := by
    intro j hj
    simpa using hmiss j hj
  have hhit0 : articleHit model a (0 + pre.length) = true := by simpa using hhit
  have := scanGo_first_hit model h pre a rest 0 hmiss0 hhit0
  unfold findAndSummarizeRelevantContent
  simp only [Nat.zero_add] at this
  refine ⟨this.1, ?_, this.2⟩
  rw [this.1]
  rfl

def artOk : ScrapedArticle :=
  { success := true, url := "http://one", title := some "one",
    content := some (String.mk (List.replicate 150 'x')), error := none }

def artOkTwo : ScrapedArticle :=
  { success := true, url := "http://two", title := some "two",
    content := some (String.mk (List.replicate 150 'y')), error := none }

def artOkThree : ScrapedArticle :=
  { success := true, url := "http://three", title := some "three",
    content := some (String.mk (List.replicate 150 'z')), error := none }

def modelSecondRelevant : Nat → Except String String := fun j =>
  if j = 0 then .ok "NOT_RELEVANT" else .ok "A concise factual summary"

set_option maxRecDepth 8192 in
/-- Witness for C5: three scraped articles where only article 2 is relevant
give articleIndex = 2, totalArticlesChecked = 2, and no call for article 3. -/
theorem c5_first_match_scan_witness :
    (findAndSummarizeRelevantContent modelSecondRelevant "H" [artOk, artOkTwo, artOkThree]).1
        = foundResult "H" artOkTwo 1 (analyzeAndSummarize (modelSecondRelevant 1))
    ∧ (findAndSummarizeRelevantContent modelSecondRelevant "H"
        [artOk, artOkTwo, artOkThree]).1.sourceArticle
        = some { url := artOkTwo.url, title := artOkTwo.title,
                 articleIndex := 2, totalArticlesChecked := 2 }
    ∧ ∀ c ∈ (findAndSummarizeRelevantContent modelSecondRelevant "H"
        [artOk, artOkTwo, artOkThree]).2, c ≤ 1 :=
  c5_first_match_scan modelSecondRelevant "H" [artOk] artOkTwo [artOkThree]
    (by intro j hj
        have hj0 : j = 0 := by simpa using hj
        subst hj0
        decide)
    (by decide)

/-! ### C10: a thrown model call is recorded as not relevant -/

theorem scanGo_congr (m1 m2 : Nat → Except String String) (h : String)
    (hag : ∀ j, analyzeAndSummarize (m1 j) = analyzeAndSummarize (m2 j)
      ∨ ((analyzeAndSummarize (m1 j)).relevant = false
          ∧ (analyzeAndSummarize (m2 j)).relevant = false)) :
    ∀ (l : List ScrapedArticle) (k : Nat), scanGo m1 h l k = scanGo m2 h l k := by
  intro l
  induction l with
  | nil => intro k; rfl
  | cons a rest ih =>
    intro k
    by_cases hs : skipArticle a = true
    · simp only [scanGo, hs, if_true, ih]
    · have hs' : skipArticle a = false := by simpa using hs
      rcases hag k with heq | ⟨hr1, hr2⟩
      · simp only [scanGo, hs', Bool.false_eq_true, if_false, heq, ih]
      · simp only [scanGo, hs', Bool.false_eq_true, if_false, hr1, hr2,
          Bool.false_and, if_false, ih]

theorem scanGo_calls_ge (m : Nat → Except String String) (h : String) :
    ∀ (l : List ScrapedArticle) (k : Nat) (c : Nat),
      c ∈ (scanGo m h l k).2 → k ≤ c := by
  intro l
  induction l with
  | nil => intro k c hc; simp [scanGo] at hc
  | cons a rest ih =>
    intro k c hc
    by_cases hs : skipArticle a = true
    · simp only [scanGo, hs, if_true] at hc
      have := ih (k + 1) c hc
      omega
    · have hs' : skipArticle a = false := by simpa using hs
      simp only [scanGo, hs', Bool.false_eq_true, if_false] at hc
      by_cases hcond : ((analyzeAndSummarize (m k)).relevant
          && truthyStr (analyzeAndSummarize (m k)).summary) = true
      · rw [if_pos hcond] at hc
        simp at hc
        omega
      · rw [if_neg hcond] at hc
        simp only [List.mem_cons] at hc
        rcases hc with rfl | hc
        · omega
        · have := ih (k + 1) c hc
          omega

theorem scanGo_calls_nodup (m : Nat → Except String String) (h : String) :
    ∀ (l : List ScrapedArticle) (k : Nat), (scanGo m h l k).2.Nodup := by
  intro l
  induction l with
  | nil => intro k; simp [scanGo]
  | cons a rest ih =>
    intro k
    by_cases hs : skipArticle a = true
    · simp only [scanGo, hs, if_true]
      exact ih (k + 1)
    · have hs' : skipArticle a = false := by simpa using hs
      simp only [scanGo, hs', Bool.false_eq_true, if_false]
      by_cases hcond : ((analyzeAndSummarize (m k)).relevant
          && truthyStr (analyzeAndSummarize (m k)).summary) = true
      · rw [if_pos hcond]
        simp
      · rw [if_neg hcond]
        refine List.Nodup.cons ?_ (ih (k + 1))
        intro hmem
        have := scanGo_calls_ge m h rest (k + 1) k hmem
        omega

/-- C10. A model call that throws is caught and recorded exactly like a
"not relevant" classification: analyzeAndSummarize returns relevant false
(with the error only in the analysis record, which the scan never embeds in
the SummaryResult); a scan whose model outcome at index i is an exception is
identical — in both the returned SummaryResult and the list of model calls —
to the same scan where the model answered the NOT_RELEVANT sentinel at i, so
the failure is not distinguishable in the headline's final result and the
scan continues with the next article; and no article index is ever called
twice (no retry). -/
theorem c10_model_error_as_not_relevant :
    (∀ e : String, analyzeAndSummarize (.error e)
      = { relevant := false, summary := none, wordCount := none, error := some e })
    ∧ (∀ (m1 m2 : Nat → Except String String) (h : String)
        (arts : List ScrapedArticle) (i : Nat) (e : String),
        (∀ j, j ≠ i → m1 j = m2 j) → m1 i = .error e → m2 i = .ok "NOT_RELEVANT" →
        findAndSummarizeRelevantContent m1 h arts
          = findAndSummarizeRelevantContent m2 h arts)
    ∧ (∀ (m : Nat → Except String String) (h : String) (arts : List ScrapedArticle),
        (findAndSummarizeRelevantContent m h arts).2.Nodup) := by
  refine ⟨fun e => rfl, ?_, fun m h arts => scanGo_calls_nodup m h arts 0⟩
  intro m1 m2 h arts i e hag h1 h2
  unfold findAndSummarizeRelevantContent
  apply scanGo_congr
  intro j
  by_cases hj : j = i
  · subst hj
    right
    rw [h1, h2]
    exact ⟨rfl, by decide⟩
  · left
    rw [hag j hj]

def modelThrows : Nat → Except String String := fun j =>
  if j = 0 then .error "ECONNRESET" else .ok "A concise factual summary"

def modelSentinel : Nat → Except String String := fun j =>
  if j = 0 then .ok "NOT_RELEVANT" else .ok "A concise factual summary"

set_option maxRecDepth 8192 in
/-- Witness for C10 at a concrete input: a throwing first call behaves like
a NOT_RELEVANT first answer. -/
theorem c10_model_error_as_not_relevant_witness :
    analyzeAndSummarize (.error "ECONNRESET")
      = { relevant := false, summary := none, wordCount := none,
          error := some "ECONNRESET" }
    ∧ findAndSummarizeRelevantContent modelThrows "H" [artOk, artOkTwo]
        = findAndSummarizeRelevantContent modelSentinel "H" [artOk, artOkTwo]
    ∧ (findAndSummarizeRelevantContent modelThrows "H" [artOk, artOkTwo]).2.Nodup :=
  ⟨c10_model_error_as_not_relevant.1 "ECONNRESET",
   c10_model_error_as_not_relevant.2.1 modelThrows modelSentinel "H" [artOk, artOkTwo] 0
     "ECONNRESET"
     (by intro j hj
         unfold modelThrows modelSentinel
         rw [if_neg hj, if_neg hj])
     (by rfl) (by rfl),
   c10_model_error_as_not_relevant.2.2 modelThrows "H" [artOk, artOkTwo]⟩

/-! ## C2: the rate limiter under the event loop

enforceApiDelay (schema.prisma appendix lines 188-199) reads Date.now() and
the shared this.lastApiCallTime, and if the elapsed time is below
API_CALL_DELAY it awaits a sleep for the remainder — a suspension point —
before setting this.lastApiCallTime = Date.now() and returning, upon which
the caller immediately issues the model call. processEmailsBatch
(src/unnamed/part_002 lines 152-169) runs up to BATCH_SIZE emails
concurrently through the same shared ContentSummarizer, so several such
executions interleave on the event loop. The model below: each task performs
enforceApiDelay then a model call. A ready task scheduled now executes the
read-and-decide prefix atomically (there is no suspension before the sleep;
in the no-sleep path there is no suspension at all, so read, update and call
initiation are one atomic step). A sleeping task whose timer expired
executes the post-sleep suffix atomically: set lastApiCallTime to the
current Date.now() and initiate the call. The clock only moves forward. -/

inductive TaskPhase where
  | ready : TaskPhase
  | sleeping (wake : Nat) : TaskPhase
  | called (t : Nat) : TaskPhase
deriving DecidableEq, Repr

structure LoopState where
  clock : Nat
  lastApiCallTime : Nat
  tasks : List TaskPhase
deriving DecidableEq, Repr

inductive SchedCmd where
  | run (i : Nat) : SchedCmd
  | advanceTo (t : Nat) : SchedCmd
deriving DecidableEq, Repr

def loopStep (delay : Nat) (s : LoopState) : SchedCmd → LoopState
  | .advanceTo t => if s.clock ≤ t then { s with clock := t } else s
  | .run i =>
    match s.tasks.getD i (.called 0) with
    | .ready =>
      let now := s.clock
      let timeSince := now - s.lastApiCallTime
      if timeSince < delay then
        { s with tasks := s.tasks.set i (.sleeping (now + (delay - timeSince))) }
      else
        { s with lastApiCallTime := now, tasks := s.tasks.set i (.called now) }
    | .sleeping wake =>
      if wake ≤ s.clock then
        { s with lastApiCallTime := s.clock, tasks := s.tasks.set i (.called s.clock) }
      else s
    | .called _ => s

def runSched (delay : Nat) (s : LoopState) (cmds : List SchedCmd) : LoopState :=
  cmds.foldl (loopStep delay) s

/-- Times at which the tasks initiated their model calls. -/
def callTimes (s : LoopState) : List Nat :=
  s.tasks.filterMap (fun p => match p with | .called t => some t | _ => none)

/-- C2 fails on the code: two concurrently processed emails whose summarizer
tasks both reach enforceApiDelay at t = 100000 while the shared
lastApiCallTime is 95000 (5s since the previous call, delay 10s) both read
the same timestamp, both sleep until 105000, and on waking both set the
timestamp and initiate their model calls at 105000 — two model calls
initiated 0ms apart, far below the configured 10s minimum. The schedule
below is a legal event-loop execution: both reads happen while both tasks
must sleep, and each wake step fires only once its timer has expired. -/
theorem c2_rate_limit_race_trace :
    callTimes (runSched 10000
        { clock := 100000, lastApiCallTime := 95000,
          tasks := [TaskPhase.ready, TaskPhase.ready] }
        [SchedCmd.run 0, SchedCmd.run 1, SchedCmd.advanceTo 105000,
         SchedCmd.run 0, SchedCmd.run 1])
      = [105000, 105000]
    ∧ 105000 - 105000 < 10000 := by
  constructor
  · rfl
  · decide

/-! ## C3: timing of the backward-compatible sequential search

Timing model of searchMultipleHeadlinesParallel (searxngService.js lines
66-133), value-free: durs gives each search's duration in input order. A
chunk starting at t0 schedules its i-th search at t0 + i * staggerDelay
(the delay(index * staggerDelay) on lines 85-91) and settles when all its
searches have finished (the await Promise.all on line 94); the next chunk
starts at the settle time. searchMultipleHeadlines (lines 136-140) delegates
with maxParallel = 1 and its delayBetweenSearches argument in staggerDelay
position. -/

def chunkTiming (staggerDelay t0 : Nat) (durs : List Nat) : List Nat × Nat :=
  ((List.range durs.length).map (fun i => t0 + i * staggerDelay),
   (durs.enum.map (fun p => t0 + p.1 * staggerDelay + p.2)).foldl max t0)

def searchSchedule (maxParallel staggerDelay : Nat) (durs : List Nat) : List Nat :=
  ((chunks maxParallel durs).foldl
    (fun (acc : List Nat × Nat) chunk =>
      let t := chunkTiming staggerDelay acc.2 chunk
      (acc.1 ++ t.1, t.2)) ([], 0)).1

def searchMultipleHeadlinesSchedule (delayBetweenSearches : Nat)
    (durs : List Nat) : List Nat :=
  searchSchedule 1 delayBetweenSearches durs

/-- C3 fails on the code: in the backward-compatible sequential mode every
chunk has exactly one headline, at within-chunk index 0, so the stagger
delay is multiplied by 0 and never applied. With delayBetweenSearches =
1000ms and search durations 5ms and 7ms, the second search starts at t = 5,
i.e. immediately when the first settles, not at 5 + 1000 as the claim
requires (searches are still strictly one at a time, but with no
inter-search delay). -/
theorem c3_sequential_mode_no_delay :
    searchMultipleHeadlinesSchedule 1000 [5, 7] = [0, 5]
    ∧ (5 : Nat) < 5 + 1000 := by
  constructor
  · rfl
  · decide

/-! ## C9: search retry exhaustion (makeSearchRequest, searxngService.js 149-195) -/

structure SearchReqOutcome where
  success : Bool
  results : List ArticleRef
  error : Option String
deriving DecidableEq, Repr

/-- makeSearchRequest. The oracle gives, per attempt number, the outcome of
that HTTP attempt: .ok with parsed results on a 200 response, .error with
the thrown message on timeout/non-200/network failure. On an error with
attempt < maxRetries the request is retried (after the fixed retryDelay,
which affects timing only) with attempt + 1; exhaustion returns success
false with the attempt count embedded in the message (line 191). -/
def makeSearchRequest (attemptOutcome : Nat → Except String (List ArticleRef))
    (maxRetries : Nat) (attempt : Nat) : SearchReqOutcome :=
  match attemptOutcome attempt with
  | .ok rs => { success := true, results := rs, error := none }
  | .error msg =>
    if h : attempt < maxRetries then
      makeSearchRequest attemptOutcome maxRetries (attempt + 1)
    else
      { success := false, results := [],
        error := some ("Failed after " ++ toString maxRetries ++ " attempts: " ++ msg) }
termination_by maxRetries - attempt
decreasing_by omega

theorem strAppendAssoc (a b c : String) : (a ++ b) ++ c = a ++ (b ++ c) := by
  cases a with
  | mk da =>
    cases b with
    | mk db =>
      cases c with
      | mk dc =>
        show String.mk ((da ++ db) ++ dc) = String.mk (da ++ (db ++ dc))
        rw [List.append_assoc]

/-- C9. When every attempt of the default 3 fails (for instance the backend
answers HTTP 500 each time), makeSearchRequest started at attempt 1 returns
a value (no exception escapes) with success false and the error message
"Failed after 3 attempts: " followed by the last failure's message — a
message embedding the attempt count "3". -/
theorem c9_retry_exhaustion (attemptOutcome : Nat → Except String (List ArticleRef))
    (m1 m2 m3 : String)
    (h1 : attemptOutcome 1 = .error m1) (h2 : attemptOutcome 2 = .error m2)
    (h3 : attemptOutcome 3 = .error m3) :
    makeSearchRequest attemptOutcome 3 1
      = { success := false, results := [],
          error := some ("Failed after " ++ toString (3 : Nat) ++ " attempts: " ++ m3) }
    ∧ ∃ pre post : String,
        "Failed after " ++ toString (3 : Nat) ++ " attempts: " ++ m3
          = pre ++ "3" ++ post := by
  have e1 : makeSearchRequest attemptOutcome 3 1 = makeSearchRequest attemptOutcome 3 2 := by
    conv_lhs => unfold makeSearchRequest
    rw [h1]
    simp
  have e2 : makeSearchRequest attemptOutcome 3 2 = makeSearchRequest attemptOutcome 3 3 := by
    conv_lhs => unfold makeSearchRequest
    rw [h2]
    simp
  have e3 : makeSearchRequest attemptOutcome 3 3
      = { success := false, results := [],
          error := some ("Failed after " ++ toString (3 : Nat) ++ " attempts: " ++ m3) } := by
    conv_lhs => unfold makeSearchRequest
    rw [h3]
    simp
  refine ⟨by rw [e1, e2, e3], "Failed after ", " attempts: " ++ m3, ?_⟩
  have h3s : toString (3 : Nat) = "3" := rfl
  rw [h3s, strAppendAssoc "Failed after " "3" " attempts: ",
    strAppendAssoc "Failed after " ("3" ++ " attempts: ") m3,
    strAppendAssoc "3" " attempts: " m3,
    ← strAppendAssoc "Failed after " "3" (" attempts: " ++ m3)]

def failingOutcome : Nat → Except String (List ArticleRef) := fun _ =>
  .error "Request failed with status code 500"

/-- Witness for C9: a backend answering HTTP 500 on all attempts. -/
theorem c9_retry_exhaustion_witness :
    makeSearchRequest failingOutcome 3 1
      = { success := false, results := [],
          error := some ("Failed after " ++ toString (3 : Nat) ++ " attempts: "
            ++ "Request failed with status code 500") }
    ∧ ∃ pre post : String,
        "Failed after " ++ toString (3 : Nat) ++ " attempts: "
            ++ "Request failed with status code 500"
          = pre ++ "3" ++ post :=
  c9_retry_exhaustion failingOutcome _ _ _ rfl rfl rfl

end Distill
